import Mathlib

/-!
Verification development for the Netflix title-recommendation app (`app.py`).

The embedding below mirrors the source:
* `Entry`/`Catalog` model one row of `clean_data.csv` and the loaded frame `df`.
* `indicesSeries` models `pd.Series(df.index, index=df['title']).drop_duplicates()`
  (line 41): a list of (label, value) pairs where the label is the title and the
  value is the row position; `Series.drop_duplicates` keeps the first occurrence
  of each VALUE (row position), not of each label.
* `tokenize`, `englishStopWords`, `vocabulary`, `count`, `docFreq`, `idf`,
  `dotRaw`, `simMatrix`, `compute_cosine_similarity` model
  `TfidfVectorizer(stop_words='english', max_features=5000).fit_transform`
  followed by `cosine_similarity` (lines 113-120), over real numbers.
  sklearn raises ValueError when the extracted vocabulary is empty, modelled by
  `Option`; a zero row is left at zero by `normalize` (a zero norm is replaced
  by 1 before dividing), modelled by `guardNorm`.
* `recommend_by_title` models lines 127-140: look `title` up in the series
  (a missing key raises KeyError, a duplicated title yields a sub-series and the
  later array comparison raises; both are modelled as `none`), read the input
  type, enumerate and stably sort the similarity row by score descending
  (Python's `sorted(key=..., reverse=True)`), filter to the same type and
  exclude the input row, take the first `n`.
* `fetch_poster` models lines 79-108 over an abstract network and a parsed JSON
  body; only `requests.exceptions.RequestException` is caught, every other
  Python exception escapes and is modelled by `Except.error`.
-/

namespace NetflixRec

/-- One row of `clean_data.csv` as used by `app.py`. -/
structure Entry where
  title : String
  type : String
  content : String
  release_year : String
  rating : String
  duration : String
  listed_in : String
  description : String
  deriving DecidableEq, Repr

abbrev Catalog := List Entry

def defaultEntry : Entry := ⟨"", "", "", "", "", "", "", ""⟩

/-- `df.iloc[i]` / `df.loc[i]` on a RangeIndex frame. -/
def entryAt (c : Catalog) (i : ℕ) : Entry := c.getD i defaultEntry

/-- `pd.Series.drop_duplicates()` on a list of (label, value) pairs: keep the
first occurrence of each VALUE (`seen` collects the values already kept). -/
def dropDupAux (seen : List ℕ) : List (String × ℕ) → List (String × ℕ)
  | [] => []
  | p :: ps =>
    if seen.contains p.2 then dropDupAux seen ps
    else p :: dropDupAux (p.2 :: seen) ps

/-- Line 41: `indices = pd.Series(df.index, index=df['title']).drop_duplicates()`.
Labels are the titles, values are the row positions. -/
def indicesSeries (c : Catalog) : List (String × ℕ) :=
  dropDupAux [] ((List.range c.length).map (fun i => ((entryAt c i).title, i)))

/-- `indices[title]`: the values at every pair whose label equals `title`.
pandas returns a scalar when there is exactly one, a sub-series when there are
several, and raises KeyError when there are none. -/
def lookupTitle (c : Catalog) (t : String) : List ℕ :=
  ((indicesSeries c).filter (fun p => p.1 == t)).map (fun p => p.2)

/-- A catalog whose first and third rows share the title A. -/
def catalogDup : Catalog :=
  [⟨"A", "Movie", "space adventure", "2001", "PG", "90 min", "Sci-Fi", "d1"⟩,
   ⟨"B", "Movie", "galaxy quest", "2002", "PG", "91 min", "Sci-Fi", "d2"⟩,
   ⟨"A", "Movie", "space robots", "2003", "PG", "92 min", "Sci-Fi", "d3"⟩]

/-- A character matched by `\w` in the default token pattern
`(?u)\b\w\w+\b` of `TfidfVectorizer` (ASCII fragment). -/
def isWordChar (ch : Char) : Bool := ch.isAlphanum || ch == '_'

/-- Split a character list into the maximal runs of word characters
(`acc` holds the reversed run in progress; non-word characters close it). -/
def splitRunsAux : List Char → List Char → List (List Char)
  | [], acc => [acc.reverse]
  | ch :: rest, acc =>
    if isWordChar ch then splitRunsAux rest (ch :: acc)
    else acc.reverse :: splitRunsAux rest []

/-- The default sklearn analyzer: lowercase, then extract the tokens matched by
`\b\w\w+\b`, i.e. the maximal word-character runs of length at least two. -/
def tokenize (s : String) : List String :=
  ((splitRunsAux (s.data.map Char.toLower) []).filter (fun r => 2 ≤ r.length)).map
    (fun r => String.mk r)

/-- sklearn's built-in English stop-word list (`stop_words='english'`). -/
def englishStopWords : List String :=
  ["a", "about", "above", "across", "after", "afterwards", "again", "against",
   "all", "almost", "alone", "along", "already", "also", "although", "always",
   "am", "among", "amongst", "amoungst", "amount", "an", "and", "another",
   "any", "anyhow", "anyone", "anything", "anyway", "anywhere", "are",
   "around", "as", "at", "back", "be", "became", "because", "become",
   "becomes", "becoming", "been", "before", "beforehand", "behind", "being",
   "below", "beside", "besides", "between", "beyond", "bill", "both",
   "bottom", "but", "by", "call", "can", "cannot", "cant", "co", "con",
   "could", "couldnt", "cry", "de", "describe", "detail", "do", "done",
   "down", "due", "during", "each", "eg", "eight", "either", "eleven",
   "else", "elsewhere", "empty", "enough", "etc", "even", "ever", "every",
   "everyone", "everything", "everywhere", "except", "few", "fifteen",
   "fifty", "fill", "find", "fire", "first", "five", "for", "former",
   "formerly", "forty", "found", "four", "from", "front", "full", "further",
   "get", "give", "go", "had", "has", "hasnt", "have", "he", "hence", "her",
   "here", "hereafter", "hereby", "herein", "hereupon", "hers", "herself",
   "him", "himself", "his", "how", "however", "hundred", "i", "ie", "if",
   "in", "inc", "indeed", "interest", "into", "is", "it", "its", "itself",
   "keep", "last", "latter", "latterly", "least", "less", "ltd", "made",
   "many", "may", "me", "meanwhile", "might", "mill", "mine", "more",
   "moreover", "most", "mostly", "move", "much", "must", "my", "myself",
   "name", "namely", "neither", "never", "nevertheless", "next", "nine",
   "no", "nobody", "none", "noone", "nor", "not", "nothing", "now",
   "nowhere", "of", "off", "often", "on", "once", "one", "only", "onto",
   "or", "other", "others", "otherwise", "our", "ours", "ourselves", "out",
   "over", "own", "part", "per", "perhaps", "please", "put", "rather", "re",
   "same", "see", "seem", "seemed", "seeming", "seems", "serious", "several",
   "she", "should", "show", "side", "since", "sincere", "six", "sixty",
   "so", "some", "somehow", "someone", "something", "sometime", "sometimes",
   "somewhere", "still", "such", "system", "take", "ten", "than", "that",
   "the", "their", "them", "themselves", "then", "thence", "there",
   "thereafter", "thereby", "therefore", "therein", "thereupon", "these",
   "they", "thick", "thin", "third", "this", "those", "though", "three",
   "through", "throughout", "thru", "thus", "to", "together", "too", "top",
   "toward", "towards", "twelve", "twenty", "two", "un", "under", "until",
   "up", "upon", "us", "very", "via", "was", "we", "well", "were", "what",
   "whatever", "when", "whence", "whenever", "where", "whereafter",
   "whereas", "whereby", "wherein", "whereupon", "wherever", "whether",
   "which", "while", "whither", "who", "whoever", "whole", "whom", "whose",
   "why", "will", "with", "within", "without", "would", "yet", "you",
   "your", "yours", "yourself", "yourselves"]

/-- The analyzer output for one document: tokens with stop words removed. -/
def docTokens (e : Entry) : List String :=
  (tokenize e.content).filter (fun t => !(englishStopWords.contains t))

/-- Raw term count of `t` in document `d` (one cell of the count matrix). -/
def count (c : Catalog) (d : ℕ) (t : String) : ℕ :=
  (docTokens (entryAt c d)).count t

/-- Document frequency: the number of documents containing `t`. -/
def docFreq (c : Catalog) (t : String) : ℕ :=
  ((List.range c.length).filter (fun d => decide (0 < count c d t))).length

/-- Corpus-wide term frequency, the key `max_features` selects by. -/
def corpusCount (c : Catalog) (t : String) : ℕ :=
  ((List.range c.length).map (fun d => count c d t)).sum

/-- Code-point lexicographic order on character lists, Python's `<` on str. -/
def charListLt : List Char → List Char → Bool
  | [], [] => false
  | [], _ :: _ => true
  | _ :: _, [] => false
  | a :: as, b :: bs =>
    if a < b then true else if b < a then false else charListLt as bs

/-- Python's `s < t` on strings. -/
def strLt (u t : String) : Bool := charListLt u.data t.data

/-- Insert into a list kept in ascending lexicographic order (stable). -/
def insertAsc (t : String) : List String → List String
  | [] => [t]
  | u :: us => if strLt u t then u :: insertAsc t us else t :: u :: us

/-- Ascending lexicographic sort, as sklearn sorts its vocabulary. -/
def sortAsc : List String → List String
  | [] => []
  | t :: ts => insertAsc t (sortAsc ts)

/-- Insert into a list kept in order of decreasing corpus frequency, ties
broken alphabetically (the `max_features` selection order). -/
def insertByFreq (c : Catalog) (t : String) : List String → List String
  | [] => [t]
  | u :: us =>
    if corpusCount c t < corpusCount c u ∨
        (corpusCount c t = corpusCount c u ∧ strLt u t = true) then
      u :: insertByFreq c t us
    else t :: u :: us

def sortByFreqDesc (c : Catalog) : List String → List String
  | [] => []
  | t :: ts => insertByFreq c t (sortByFreqDesc c ts)

/-- All analyzer tokens of the corpus, in document order. -/
def allTokens (c : Catalog) : List String := (c.map docTokens).flatten

/-- The distinct corpus terms, sorted; the uncapped vocabulary. -/
def vocabularyFull (c : Catalog) : List String := sortAsc (allTokens c).dedup

/-- The fitted vocabulary: capped to the 5000 terms of highest corpus
frequency when there are more (`max_features=5000`), sorted alphabetically. -/
def vocabulary (c : Catalog) : List String :=
  if (vocabularyFull c).length ≤ 5000 then vocabularyFull c
  else sortAsc ((sortByFreqDesc c (vocabularyFull c)).take 5000)

/-- Smoothed inverse document frequency (`smooth_idf=True` default):
`ln((1+n)/(1+df)) + 1`. -/
noncomputable def idf (c : Catalog) (t : String) : ℝ :=
  Real.log ((1 + (c.length : ℝ)) / (1 + (docFreq c t : ℝ))) + 1

/-- One cell of the un-normalized tf-idf matrix: `count * idf`. -/
noncomputable def tfidfRaw (c : Catalog) (d : ℕ) (t : String) : ℝ :=
  (count c d t : ℝ) * idf c t

/-- Scalar product of the un-normalized tf-idf rows `d` and `e`. -/
noncomputable def dotRaw (c : Catalog) (d e : ℕ) : ℝ :=
  ((vocabulary c).map (fun t => tfidfRaw c d t * tfidfRaw c e t)).sum

/-- Euclidean norm of the un-normalized tf-idf row `d`. -/
noncomputable def rowNorm (c : Catalog) (d : ℕ) : ℝ :=
  Real.sqrt (dotRaw c d d)

/-- The divisor used by sklearn's `normalize`: a zero norm is replaced by 1,
so an all-zero row stays zero instead of producing NaN. -/
noncomputable def guardNorm (c : Catalog) (d : ℕ) : ℝ :=
  if rowNorm c d = 0 then 1 else rowNorm c d

/-- `cosine_similarity(tfidf_matrix, tfidf_matrix)[d][e]`.  The tf-idf rows are
L2-normalized at `fit_transform` and `cosine_similarity` normalizes again;
composed, the entry is the raw scalar product over the guarded norms. -/
noncomputable def simMatrix (c : Catalog) (d e : ℕ) : ℝ :=
  dotRaw c d e / (guardNorm c d * guardNorm c e)

/-- Lines 113-120, `compute_cosine_similarity(data)`: `fit_transform` raises
ValueError when the extracted vocabulary is empty (for instance when every
document holds only stop words), modelled by `none`. -/
noncomputable def compute_cosine_similarity (c : Catalog) :
    Option (ℕ → ℕ → ℝ) :=
  if vocabulary c = [] then none else some (simMatrix c)

/-- One step of the stable descending-by-score insertion: walk past every
element of strictly larger score, then sit in front of the rest.  Python's
`sorted(key=lambda x: x[1], reverse=True)` is a stable sort with exactly this
order, so the two agree on every input. -/
noncomputable def insertScore (p : ℕ × ℝ) : List (ℕ × ℝ) → List (ℕ × ℝ)
  | [] => [p]
  | q :: qs => if p.2 < q.2 then q :: insertScore p qs else p :: q :: qs

/-- Line 132: `sorted(sim_scores, key=lambda x: x[1], reverse=True)` as a
stable descending sort on (row index, score) pairs. -/
noncomputable def sortByScoreDesc : List (ℕ × ℝ) → List (ℕ × ℝ)
  | [] => []
  | p :: ps => insertScore p (sortByScoreDesc ps)

/-- Line 131: `list(enumerate(cosine_sim[idx]))`. -/
noncomputable def scorePairs (c : Catalog) (sim : ℕ → ℕ → ℝ) (idx : ℕ) :
    List (ℕ × ℝ) :=
  (List.range c.length).map (fun j => (j, sim idx j))

/-- Line 136 filter condition: same `type` as the input row and not the input
row itself. -/
def candPred (c : Catalog) (idx : ℕ) (p : ℕ × ℝ) : Bool :=
  ((entryAt c p.1).type == (entryAt c idx).type) && (p.1 != idx)

/-- Lines 131-139 for a scalar `idx`: enumerate the similarity row, sort by
score descending (stable), filter, take the first `n`, keep the row indices. -/
noncomputable def recommendCore (c : Catalog) (sim : ℕ → ℕ → ℝ) (idx n : ℕ) :
    List ℕ :=
  ((((sortByScoreDesc (scorePairs c sim idx)).filter (candPred c idx)).take n).map
    (fun p => p.1))

/-- Lines 127-140, `recommend_by_title(title, n)` returning the recommended
row positions.  `indices[title]` yields a scalar only when exactly one row
carries the title; a missing title raises KeyError and a duplicated title
produces a sub-series on which the scoring code raises (comparing ndarrays),
so both are modelled as `none`. -/
noncomputable def recommend_by_title (c : Catalog) (sim : ℕ → ℕ → ℝ)
    (title : String) (n : ℕ) : Option (List ℕ) :=
  match lookupTitle c title with
  | [idx] => some (recommendCore c sim idx n)
  | _ => none

/-- The number of candidate rows: same type as row `idx`, not `idx` itself. -/
def candidateCount (c : Catalog) (idx : ℕ) : ℕ :=
  ((List.range c.length).filter
    (fun j => ((entryAt c j).type == (entryAt c idx).type) && (j != idx))).length

/-- A catalog whose first row has empty `content` (an all-zero tf-idf row). -/
def catalogEmptyRow : Catalog :=
  [⟨"E", "Movie", "", "2001", "PG", "90 min", "Drama", "d1"⟩,
   ⟨"A", "Movie", "space adventure", "2002", "PG", "91 min", "Sci-Fi", "d2"⟩]

/-- A catalog whose only row holds nothing but stop words: the fitted
vocabulary is empty and `fit_transform` raises. -/
def catalogOnlyStop : Catalog :=
  [⟨"E", "Movie", "the and of", "2001", "PG", "90 min", "Drama", "d1"⟩]

/-- Three same-type rows with identical `content`: all pairwise similarities
are equal, which exercises the tie-break of the sort. -/
def catalog3 : Catalog :=
  [⟨"A", "Movie", "space adventure", "2001", "PG", "90 min", "Sci-Fi", "d1"⟩,
   ⟨"B", "Movie", "space adventure", "2002", "PG", "91 min", "Sci-Fi", "d2"⟩,
   ⟨"C", "Movie", "space adventure", "2003", "PG", "92 min", "Sci-Fi", "d3"⟩]

/-- A constant similarity matrix: every score equal, every pair tied. -/
noncomputable def simOne : ℕ → ℕ → ℝ := fun _ _ => 1

/-- A parsed JSON value, as returned by `response.json()`. -/
inductive Json where
  | null : Json
  | boolean : Bool → Json
  | num : Int → Json
  | str : String → Json
  | arr : List Json → Json
  | obj : List (String × Json) → Json

/-- Python truthiness of the corresponding value. -/
def Json.truthy : Json → Bool
  | .null => false
  | .boolean b => b
  | .num n => n != 0
  | .str s => s != ""
  | .arr l => !l.isEmpty
  | .obj l => !l.isEmpty

/-- The Python exceptions the poster helper can leak. -/
inductive PyError where
  | attributeError : PyError
  | typeError : PyError
  | keyError : PyError
  | indexError : PyError
  deriving DecidableEq

/-- Key lookup in a JSON object's field list. -/
def jsonLookup (fields : List (String × Json)) (k : String) : Option Json :=
  match fields.find? (fun p => p.1 == k) with
  | some p => some p.2
  | none => none

/-- `value.get(key)`: only a dict has `.get`; on anything else Python raises
AttributeError, which `fetch_poster` does not catch. -/
def pyGet (j : Json) (k : String) : Except PyError (Option Json) :=
  match j with
  | .obj fields => .ok (jsonLookup fields k)
  | _ => .error .attributeError

/-- `value[0]`: first element of a list, first character of a string (as a
one-character string), KeyError on a dict without the integer key, TypeError
on anything not subscriptable. -/
def pyIndexZero (j : Json) : Except PyError Json :=
  match j with
  | .arr [] => .error .indexError
  | .arr (x :: _) => .ok x
  | .str s =>
    if s = "" then .error .indexError else .ok (.str (String.mk (s.data.take 1)))
  | .obj _ => .error .keyError
  | _ => .error .typeError

/-- `"https://image.tmdb.org/t/p/w500" + poster_path`: string concatenation
raises TypeError unless the value is a string. -/
def pyConcatUrl (j : Json) : Except PyError String :=
  match j with
  | .str s => .ok ("https://image.tmdb.org/t/p/w500" ++ s)
  | _ => .error .typeError

/-- An HTTP response already parsed: status code and JSON body. -/
structure HttpResponse where
  status : ℕ
  body : Json

/-- Outcome of `requests.get`: either a `requests.exceptions.RequestException`
or a response. -/
inductive HttpOutcome where
  | exn : HttpOutcome
  | success : HttpResponse → HttpOutcome

def movieSearchUrl : String := "https://api.themoviedb.org/3/search/movie"

def tvSearchUrl : String := "https://api.themoviedb.org/3/search/tv"

/-- Lines 85-88: the endpoint is chosen by comparing `content_type` with the
exact string Movie; anything else goes to the TV endpoint. -/
def searchUrl (contentType : String) : String :=
  if contentType == "Movie" then movieSearchUrl else tvSearchUrl

/-- Lift `"..." + poster_path` back into the control flow: an error
propagates, a URL becomes the returned poster. -/
def useConcat : Except PyError String → Except PyError (Option String)
  | .error e => .error e
  | .ok url => .ok (some url)

/-- Line 102-103: `if poster_path: return base + poster_path`, falling
through to `return None` on a falsy value. -/
def usePosterPath (pp : Json) : Except PyError (Option String) :=
  if pp.truthy then useConcat (pyConcatUrl pp) else .ok none

/-- Dispatch on the outcome of `.get("poster_path")`: an uncaught exception
propagates, an absent value falls through to `return None`. -/
def usePosterOpt : Except PyError (Option Json) → Except PyError (Option String)
  | .error e => .error e
  | .ok none => .ok none
  | .ok (some pp) => usePosterPath pp

/-- Lines 101-103: `data["results"][0].get("poster_path")` on the first
result and the poster-path check. -/
def useFirstResult (first : Json) : Except PyError (Option String) :=
  usePosterOpt (pyGet first ("poster_path"))

/-- Dispatch on the outcome of `data["results"][0]`. -/
def useIndexed : Except PyError Json → Except PyError (Option String)
  | .error e => .error e
  | .ok first => useFirstResult first

/-- Dispatch on the outcome of `data.get("results")`: an uncaught exception
propagates, an absent or falsy value falls through to `return None`. -/
def useResultsOpt : Except PyError (Option Json) → Except PyError (Option String)
  | .error e => .error e
  | .ok none => .ok none
  | .ok (some results) =>
    if !results.truthy then .ok none else useIndexed (pyIndexZero results)

/-- Lines 99-105: handle the parsed body `data`. -/
def useBody (b : Json) : Except PyError (Option String) :=
  useResultsOpt (pyGet b ("results"))

/-- Lines 95-105: handle the outcome of `requests.get`; a
`RequestException` is caught by line 107 and a non-200 status returns None. -/
def useNet : HttpOutcome → Except PyError (Option String)
  | .exn => .ok none
  | .success resp => if resp.status != 200 then .ok none else useBody resp.body

/-- Lines 79-108, `fetch_poster(title, content_type)`.  The network is an
abstract function from (url, query) to an outcome; `apiKey` models
`TMDB_API_KEY` (`os.getenv` yields `none` or a string, and `if not
TMDB_API_KEY` also treats the empty string as missing).  Only
`RequestException` is caught; every other exception escapes as
`Except.error`. -/
def fetch_poster (apiKey : Option String) (net : String → String → HttpOutcome)
    (title contentType : String) : Except PyError (Option String) :=
  if apiKey = none ∨ apiKey = some "" then .ok none
  else useNet (net (searchUrl contentType) title)

/-- `str(...)` shape test used by the well-shapedness predicate below. -/
def isStr : Json → Bool
  | .str _ => true
  | _ => false

/-- Well-shaped poster-path value: falsy or a string. -/
def goodPp : Option Json → Bool
  | none => true
  | some pp => !pp.truthy || isStr pp

/-- Well-shaped first result: an object with a well-shaped poster path. -/
def goodFirst : Json → Bool
  | .obj ffields => goodPp (jsonLookup ffields ("poster_path"))
  | _ => false

/-- Well-shaped truthy results value: a non-empty array headed by an object. -/
def goodResults : Json → Bool
  | .arr (first :: _) => goodFirst first
  | _ => false

/-- Well-shaped optional results value: absent or falsy values are fine. -/
def goodResultsOpt : Option Json → Bool
  | none => true
  | some results => if results.truthy then goodResults results else true

/-- A body shape on which the extraction path of `fetch_poster` meets only
the types it expects: the body is an object; its results field, when truthy,
is a non-empty array whose first element is an object; that element's
poster_path, when truthy, is a string. -/
def goodBody : Json → Bool
  | .obj fields => goodResultsOpt (jsonLookup fields ("results"))
  | _ => false

/-- The URL denoted by a poster-path value: a non-empty string prefixed by
the image base URL; everything else denotes no poster. -/
def posterPathValue : Json → Option String
  | .str s =>
    if s != "" then some ("https://image.tmdb.org/t/p/w500" ++ s) else none
  | _ => none

def posterOfPpOpt : Option Json → Option String
  | some pp => posterPathValue pp
  | none => none

def posterOfFirst : Json → Option String
  | .obj ffields => posterOfPpOpt (jsonLookup ffields ("poster_path"))
  | _ => none

def posterOfResults : Option Json → Option String
  | some (.arr (first :: _)) => posterOfFirst first
  | _ => none

/-- The poster URL a well-shaped body denotes: the first result's non-empty
poster_path string, prefixed by the image base URL; `none` otherwise. -/
def posterOf : Json → Option String
  | .obj fields => posterOfResults (jsonLookup fields ("results"))
  | _ => none

/-! ### Facts about the similarity matrix -/

lemma docFreq_le_length (c : Catalog) (t : String) : docFreq c t ≤ c.length := by
  unfold docFreq
  calc ((List.range c.length).filter
          (fun d => decide (0 < count c d t))).length
      ≤ (List.range c.length).length := List.length_filter_le _ _
    _ = c.length := List.length_range c.length

lemma idf_pos (c : Catalog) (t : String) : 0 < idf c t := by
  unfold idf
  have hden : (0 : ℝ) < 1 + (docFreq c t : ℝ) := by positivity
  have harg : (1 : ℝ) ≤ (1 + (c.length : ℝ)) / (1 + (docFreq c t : ℝ)) := by
    rw [le_div_iff₀ hden]
    have : (docFreq c t : ℝ) ≤ (c.length : ℝ) := by
      exact_mod_cast docFreq_le_length c t
    linarith
  have hlog : 0 ≤ Real.log ((1 + (c.length : ℝ)) / (1 + (docFreq c t : ℝ))) :=
    Real.log_nonneg harg
  linarith

lemma tfidfRaw_eq_zero (c : Catalog) (d : ℕ) (t : String)
    (h : count c d t = 0) : tfidfRaw c d t = 0 := by
  unfold tfidfRaw
  rw [h]
  simp

lemma dotRaw_zero_left (c : Catalog) (d e : ℕ)
    (hz : ∀ t ∈ vocabulary c, count c d t = 0) : dotRaw c d e = 0 := by
  unfold dotRaw
  apply List.sum_eq_zero
  intro x hx
  obtain ⟨t, ht, rfl⟩ := List.mem_map.mp hx
  rw [tfidfRaw_eq_zero c d t (hz t ht), zero_mul]

lemma dotRaw_zero_right (c : Catalog) (d e : ℕ)
    (hz : ∀ t ∈ vocabulary c, count c e t = 0) : dotRaw c d e = 0 := by
  unfold dotRaw
  apply List.sum_eq_zero
  intro x hx
  obtain ⟨t, ht, rfl⟩ := List.mem_map.mp hx
  rw [tfidfRaw_eq_zero c e t (hz t ht), mul_zero]

lemma simMatrix_zero_row (c : Catalog) (d : ℕ)
    (hz : ∀ t ∈ vocabulary c, count c d t = 0) (e : ℕ) :
    simMatrix c d e = 0 ∧ simMatrix c e d = 0 := by
  unfold simMatrix
  rw [dotRaw_zero_left c d e hz, dotRaw_zero_right c e d hz]
  simp

lemma dotRaw_self_pos (c : Catalog) (d : ℕ)
    (hnz : ∃ t ∈ vocabulary c, count c d t ≠ 0) : 0 < dotRaw c d d := by
  obtain ⟨t0, ht0, hc0⟩ := hnz
  have hterm : 0 < tfidfRaw c d t0 * tfidfRaw c d t0 := by
    have hcast : (0 : ℝ) < (count c d t0 : ℝ) := by
      exact_mod_cast Nat.pos_of_ne_zero hc0
    have : 0 < tfidfRaw c d t0 := mul_pos hcast (idf_pos c t0)
    exact mul_pos this this
  have hmem : tfidfRaw c d t0 * tfidfRaw c d t0 ∈
      (vocabulary c).map (fun t => tfidfRaw c d t * tfidfRaw c d t) :=
    List.mem_map_of_mem _ ht0
  have hnonneg : ∀ x ∈ (vocabulary c).map
      (fun t => tfidfRaw c d t * tfidfRaw c d t), (0 : ℝ) ≤ x := by
    intro x hx
    obtain ⟨t, _, rfl⟩ := List.mem_map.mp hx
    exact mul_self_nonneg _
  have hle := List.single_le_sum hnonneg _ hmem
  unfold dotRaw
  linarith

lemma simMatrix_diag_one (c : Catalog) (d : ℕ)
    (hnz : ∃ t ∈ vocabulary c, count c d t ≠ 0) : simMatrix c d d = 1 := by
  have hpos := dotRaw_self_pos c d hnz
  have hnorm : rowNorm c d = Real.sqrt (dotRaw c d d) := rfl
  have hnormpos : 0 < rowNorm c d := by
    rw [hnorm]
    exact Real.sqrt_pos.mpr hpos
  unfold simMatrix guardNorm
  rw [if_neg (ne_of_gt hnormpos), hnorm, Real.mul_self_sqrt (le_of_lt hpos)]
  exact div_self (ne_of_gt hpos)

/-! ### Facts about the stable sort and the recommendation list -/

/-- The order the sorted pair list satisfies: scores never increase, and equal
scores keep ascending row indices (the stable tie-break). -/
def scoreRel (p q : ℕ × ℝ) : Prop := q.2 ≤ p.2 ∧ (p.2 = q.2 → p.1 < q.1)

lemma perm_insertScore (p : ℕ × ℝ) (l : List (ℕ × ℝ)) :
    List.Perm (insertScore p l) (p :: l) := by
  induction l with
  | nil => simp [insertScore]
  | cons q qs ih =>
    unfold insertScore
    by_cases h : p.2 < q.2
    · rw [if_pos h]
      exact (ih.cons q).trans (List.Perm.swap p q qs)
    · rw [if_neg h]

lemma perm_sortByScoreDesc (l : List (ℕ × ℝ)) :
    List.Perm (sortByScoreDesc l) l := by
  induction l with
  | nil => simp [sortByScoreDesc]
  | cons p ps ih =>
    unfold sortByScoreDesc
    exact (perm_insertScore p (sortByScoreDesc ps)).trans (ih.cons p)

lemma pairwise_insertScore (p : ℕ × ℝ) (l : List (ℕ × ℝ))
    (hl : l.Pairwise scoreRel) (hp : ∀ q ∈ l, p.1 < q.1) :
    (insertScore p l).Pairwise scoreRel := by
  induction l with
  | nil => simp [insertScore, List.pairwise_singleton]
  | cons q qs ih =>
    rcases List.pairwise_cons.mp hl with ⟨hq, hqs⟩
    unfold insertScore
    by_cases h : p.2 < q.2
    · rw [if_pos h]
      refine List.pairwise_cons.mpr ⟨?_, ih hqs (fun r hr => hp r (List.mem_cons_of_mem q hr))⟩
      intro r hr
      rcases List.mem_cons.mp ((perm_insertScore p qs).mem_iff.mp hr) with hrp | hrq
      · subst hrp
        exact ⟨le_of_lt h, fun he => absurd (he ▸ h) (lt_irrefl _)⟩
      · exact hq r hrq
    · rw [if_neg h]
      refine List.pairwise_cons.mpr ⟨?_, hl⟩
      intro r hr
      rcases List.mem_cons.mp hr with hrq | hrqs
      · subst hrq
        exact ⟨not_lt.mp h, fun _ => hp r (List.mem_cons_self r qs)⟩
      · rcases hq r hrqs with ⟨hle, _⟩
        exact ⟨le_trans hle (not_lt.mp h), fun _ => hp r (List.mem_cons_of_mem q hrqs)⟩

lemma pairwise_sortByScoreDesc (l : List (ℕ × ℝ))
    (hl : l.Pairwise (fun p q => p.1 < q.1)) :
    (sortByScoreDesc l).Pairwise scoreRel := by
  induction l with
  | nil => simp [sortByScoreDesc]
  | cons p ps ih =>
    rcases List.pairwise_cons.mp hl with ⟨hp, hps⟩
    unfold sortByScoreDesc
    refine pairwise_insertScore p _ (ih hps) ?_
    intro q hq
    exact hp q ((perm_sortByScoreDesc ps).subset hq)

lemma pairwise_scorePairs (c : Catalog) (sim : ℕ → ℕ → ℝ) (idx : ℕ) :
    (scorePairs c sim idx).Pairwise (fun p q => p.1 < q.1) := by
  unfold scorePairs
  exact List.pairwise_map.mpr ((List.pairwise_lt_range c.length).imp (fun h => h))

lemma mem_scorePairs (c : Catalog) (sim : ℕ → ℕ → ℝ) (idx : ℕ)
    (p : ℕ × ℝ) (hp : p ∈ scorePairs c sim idx) :
    p.1 < c.length ∧ p.2 = sim idx p.1 := by
  unfold scorePairs at hp
  obtain ⟨j, hj, rfl⟩ := List.mem_map.mp hp
  exact ⟨List.mem_range.mp hj, rfl⟩

lemma recommend_eq_core (c : Catalog) (sim : ℕ → ℕ → ℝ) (title : String)
    (n idx : ℕ) (hlook : lookupTitle c title = [idx]) :
    recommend_by_title c sim title n = some (recommendCore c sim idx n) := by
  unfold recommend_by_title
  rw [hlook]

/-- The filtered, truncated pair list behind `recommendCore`. -/
noncomputable def takenPairs (c : Catalog) (sim : ℕ → ℕ → ℝ) (idx n : ℕ) :
    List (ℕ × ℝ) :=
  ((sortByScoreDesc (scorePairs c sim idx)).filter (candPred c idx)).take n

lemma recommendCore_eq_map (c : Catalog) (sim : ℕ → ℕ → ℝ) (idx n : ℕ) :
    recommendCore c sim idx n = (takenPairs c sim idx n).map (fun p => p.1) := rfl

lemma mem_takenPairs (c : Catalog) (sim : ℕ → ℕ → ℝ) (idx n : ℕ)
    (p : ℕ × ℝ) (hp : p ∈ takenPairs c sim idx n) :
    p.1 < c.length ∧ p.2 = sim idx p.1 ∧
      (entryAt c p.1).type = (entryAt c idx).type ∧ p.1 ≠ idx := by
  have hpf := List.mem_of_mem_take hp
  have hmem := (perm_sortByScoreDesc _).subset (List.mem_filter.mp hpf).1
  have hpred := (List.mem_filter.mp hpf).2
  unfold candPred at hpred
  simp only [Bool.and_eq_true, beq_iff_eq, bne_iff_ne] at hpred
  obtain ⟨hlt, hscore⟩ := mem_scorePairs c sim idx p hmem
  exact ⟨hlt, hscore, hpred.1, hpred.2⟩

lemma pairwise_takenPairs (c : Catalog) (sim : ℕ → ℕ → ℝ) (idx n : ℕ) :
    (takenPairs c sim idx n).Pairwise scoreRel :=
  List.Pairwise.sublist (List.take_sublist _ _)
    (List.Pairwise.filter _
      (pairwise_sortByScoreDesc _ (pairwise_scorePairs c sim idx)))

lemma insertScore_const_one (p : ℕ × ℝ) (l : List (ℕ × ℝ)) (hp : p.2 = 1)
    (hl : ∀ q ∈ l, q.2 = (1 : ℝ)) : insertScore p l = p :: l := by
  cases l with
  | nil => rfl
  | cons q qs =>
    have h : ¬ p.2 < q.2 := by
      rw [hp, hl q (List.mem_cons_self q qs)]
      exact lt_irrefl 1
    unfold insertScore
    rw [if_neg h]

lemma sortByScoreDesc_const_one (l : List (ℕ × ℝ))
    (hl : ∀ q ∈ l, q.2 = (1 : ℝ)) : sortByScoreDesc l = l := by
  induction l with
  | nil => rfl
  | cons p ps ih =>
    unfold sortByScoreDesc
    rw [ih (fun q hq => hl q (List.mem_cons_of_mem p hq))]
    exact insertScore_const_one p ps (hl p (List.mem_cons_self p ps))
      (fun q hq => hl q (List.mem_cons_of_mem p hq))

/-- On `catalog3` every similarity under `simOne` is 1, so the sort keeps the
enumeration order (stability), row 0 is filtered away, and querying A
recommends rows 1 and 2 in that order. -/
lemma recommend_c0_eval :
    recommend_by_title catalog3 simOne ("A") 6 = some [1, 2] := by
  rw [recommend_eq_core catalog3 simOne ("A") 6 0 rfl]
  have hsp : scorePairs catalog3 simOne 0 =
      [(0, (1 : ℝ)), (1, (1 : ℝ)), (2, (1 : ℝ))] := rfl
  have htaken : takenPairs catalog3 simOne 0 6 = [(1, (1 : ℝ)), (2, (1 : ℝ))] := by
    unfold takenPairs
    rw [hsp, sortByScoreDesc_const_one _ (by intro q hq; fin_cases hq <;> rfl)]
    rfl
  rw [recommendCore_eq_map, htaken]
  rfl

/-! ### Claim theorems -/

/-- C1: the claim says the title index maps each title to a single row
position, retaining the first occurrence when titles repeat.  It does not:
`Series.drop_duplicates()` removes entries with duplicate VALUES, and the
values (the row positions) are always distinct, so the call is a no-op and a
duplicated title keeps all of its positions.  On a catalog titled A, B, A the
lookup of A yields both positions 0 and 2 (not the scalar 0), and
`recommend_by_title` on that title then fails instead of using row 0. -/
theorem titleIndex_first_wins_fails :
    indicesSeries catalogDup = [("A", 0), ("B", 1), ("A", 2)] ∧
    lookupTitle catalogDup ("A") = [0, 2] ∧
    recommend_by_title catalogDup (fun _ _ => 0) ("A") 6 = none :=
  ⟨rfl, rfl, rfl⟩

/-- C2 counterexample: the claim says every diagonal entry is 1, including
rows with empty content.  On a catalog whose first row has empty content the
build succeeds (the other row provides the vocabulary) but the diagonal entry
of the empty row is 0, not 1: sklearn has no convention forcing the diagonal
to 1, it merely guards a zero norm by dividing by 1. -/
theorem diag_not_always_one :
    compute_cosine_similarity catalogEmptyRow = some (simMatrix catalogEmptyRow) ∧
    simMatrix catalogEmptyRow 0 0 = 0 ∧ (0 : ℝ) ≠ 1 := by
  refine ⟨?_, ?_, by norm_num⟩
  · unfold compute_cosine_similarity
    rw [if_neg (by decide)]
  · exact (simMatrix_zero_row catalogEmptyRow 0 (by decide) 0).1

/-- C2 amended: a diagonal entry `M[d][d]` equals 1 exactly when row `d` has a
nonzero feature vector (some vocabulary term occurs in its content); a row
whose feature vector is all zero (empty or stop-word-only content) instead has
EVERY entry equal to 0, the diagonal included. -/
theorem diag_one_iff_nonzero_row (c : Catalog) (d : ℕ) (hd : d < c.length) :
    ((∃ t ∈ vocabulary c, count c d t ≠ 0) → simMatrix c d d = 1) ∧
    ((∀ t ∈ vocabulary c, count c d t = 0) →
      ∀ e, simMatrix c d e = 0 ∧ simMatrix c e d = 0) :=
  ⟨fun hnz => simMatrix_diag_one c d hnz,
   fun hz e => simMatrix_zero_row c d hz e⟩

/-- C2 witness: in `catalogEmptyRow`, the non-empty row 1 has diagonal 1 and
the empty row 0 has similarity 0 with row 1. -/
theorem diag_one_iff_nonzero_row_witness :
    simMatrix catalogEmptyRow 1 1 = 1 ∧ simMatrix catalogEmptyRow 0 1 = 0 :=
  ⟨(diag_one_iff_nonzero_row catalogEmptyRow 1 (by decide)).1
      ⟨"space", by decide, by decide⟩,
   ((diag_one_iff_nonzero_row catalogEmptyRow 0 (by decide)).2 (by decide) 1).1⟩

/-- C8 counterexample: the claim quantifies over every catalog containing an
empty or stop-word-only entry.  When EVERY entry is such, the fitted
vocabulary is empty and `fit_transform` raises ValueError, so vectorization
does not complete at all: the one-row catalog whose content is three stop
words yields no similarity matrix. -/
theorem all_stop_catalog_fails :
    compute_cosine_similarity catalogOnlyStop = none := by
  unfold compute_cosine_similarity
  rw [if_pos (by decide)]

/-- C8 amended: for a catalog containing a row whose analyzer output is empty
(empty content or only stop words), PROVIDED the corpus vocabulary is not
empty (some other row contributes a token), the build completes — the zero
norm is guarded by 1, never divided by — and that row's similarity with every
row, in both directions, is exactly 0. -/
theorem zero_row_safe (c : Catalog) (d : ℕ) (hd : d < c.length)
    (hz : docTokens (entryAt c d) = []) (hv : vocabulary c ≠ []) :
    compute_cosine_similarity c = some (simMatrix c) ∧
    ∀ e, simMatrix c d e = 0 ∧ simMatrix c e d = 0 := by
  have hcount : ∀ t ∈ vocabulary c, count c d t = 0 := by
    intro t _
    unfold count
    rw [hz]
    rfl
  refine ⟨?_, fun e => simMatrix_zero_row c d hcount e⟩
  unfold compute_cosine_similarity
  rw [if_neg hv]

/-- C8 witness: the empty-content row of `catalogEmptyRow` builds fine and has
similarity 0 with the non-empty row, in both directions. -/
theorem zero_row_safe_witness :
    compute_cosine_similarity catalogEmptyRow = some (simMatrix catalogEmptyRow) ∧
    simMatrix catalogEmptyRow 0 1 = 0 ∧ simMatrix catalogEmptyRow 1 0 = 0 := by
  obtain ⟨h1, h2⟩ :=
    zero_row_safe catalogEmptyRow 0 (by decide) (by decide) (by decide)
  exact ⟨h1, (h2 1).1, (h2 1).2⟩

/-- C3: whenever the queried title resolves and the call returns, the output
row positions are listed in order of non-increasing similarity to the
reference row, and two positions of EQUAL similarity appear in ascending
original row order — Python's `sorted` is stable and the pairs are enumerated
in row order, so the earlier row surfaces first. -/
theorem recommend_tie_break (c : Catalog) (sim : ℕ → ℕ → ℝ) (title : String)
    (n idx : ℕ) (out : List ℕ)
    (hlook : lookupTitle c title = [idx])
    (hrec : recommend_by_title c sim title n = some out) :
    ∀ a b : ℕ, b < out.length → a < b →
      sim idx (out.getD b 0) ≤ sim idx (out.getD a 0) ∧
      (sim idx (out.getD a 0) = sim idx (out.getD b 0) →
        out.getD a 0 < out.getD b 0) := by
  have hout : out = (takenPairs c sim idx n).map (fun p => p.1) := by
    rw [recommend_eq_core c sim title n idx hlook] at hrec
    exact (Option.some.inj hrec).symm.trans (recommendCore_eq_map c sim idx n)
  subst hout
  intro a b hb hab
  have hlen : (List.map (fun p => p.1) (takenPairs c sim idx n)).length
      = (takenPairs c sim idx n).length := by simp
  have hb2 : b < (takenPairs c sim idx n).length := hlen ▸ hb
  have ha : a < (takenPairs c sim idx n).length := lt_trans hab hb2
  have hR := List.pairwise_iff_getElem.mp (pairwise_takenPairs c sim idx n)
    a b ha hb2 hab
  have hsa := (mem_takenPairs c sim idx n _ (List.getElem_mem ha)).2.1
  have hsb := (mem_takenPairs c sim idx n _ (List.getElem_mem hb2)).2.1
  have hga : (List.map (fun p => p.1) (takenPairs c sim idx n)).getD a 0 =
      (takenPairs c sim idx n)[a].1 := by
    have hamap : a < (List.map (fun p => p.1) (takenPairs c sim idx n)).length := by
      rw [hlen]
      exact ha
    rw [List.getD_eq_getElem _ _ hamap, List.getElem_map]
  have hgb : (List.map (fun p => p.1) (takenPairs c sim idx n)).getD b 0 =
      (takenPairs c sim idx n)[b].1 := by
    have hbmap : b < (List.map (fun p => p.1) (takenPairs c sim idx n)).length := by
      rw [hlen]
      exact hb2
    rw [List.getD_eq_getElem _ _ hbmap, List.getElem_map]
  rw [hga, hgb]
  rcases hR with ⟨hle, htie⟩
  constructor
  · rw [← hsa, ← hsb]
    exact hle
  · intro heq
    apply htie
    rw [hsa, hsb]
    exact heq

/-- C3 witness: in `catalog3` under the all-ones similarity, rows 1 and 2 tie
and are returned in ascending row order. -/
theorem recommend_tie_break_witness :
    simOne 0 (([1, 2] : List ℕ).getD 1 0) ≤ simOne 0 (([1, 2] : List ℕ).getD 0 0) ∧
    (simOne 0 (([1, 2] : List ℕ).getD 0 0) = simOne 0 (([1, 2] : List ℕ).getD 1 0) →
      ([1, 2] : List ℕ).getD 0 0 < ([1, 2] : List ℕ).getD 1 0) :=
  recommend_tie_break catalog3 simOne ("A") 6 0 [1, 2] rfl recommend_c0_eval 0 1
    (by norm_num) (by norm_num)

/-- C4: a title absent from the title index makes `recommend_by_title` fail
(pandas raises KeyError at `indices[title]`, modelled by `none`); it never
silently returns an empty list. -/
theorem recommend_unknown_title (c : Catalog) (sim : ℕ → ℕ → ℝ)
    (title : String) (n : ℕ)
    (habs : ∀ p ∈ indicesSeries c, p.1 ≠ title) :
    recommend_by_title c sim title n = none := by
  have hfil : (indicesSeries c).filter (fun p => p.1 == title) = [] := by
    apply List.filter_eq_nil_iff.mpr
    intro p hp
    simp [habs p hp]
  have hlook : lookupTitle c title = [] := by
    unfold lookupTitle
    rw [hfil]
    rfl
  unfold recommend_by_title
  rw [hlook]

/-- C4 witness: the title Z is not in the index of `catalog3`, and the lookup
fails rather than returning an empty recommendation list. -/
theorem recommend_unknown_title_witness :
    recommend_by_title catalog3 simOne ("Z") 6 = none :=
  recommend_unknown_title catalog3 simOne ("Z") 6 (by decide)

/-- C5: every recommended row has the same `type` field as the row the input
title resolved to — the filter keeps only rows of the input's type. -/
theorem recommend_type_purity (c : Catalog) (sim : ℕ → ℕ → ℝ) (title : String)
    (n idx : ℕ) (out : List ℕ) (j : ℕ)
    (hlook : lookupTitle c title = [idx])
    (hrec : recommend_by_title c sim title n = some out) (hj : j ∈ out) :
    (entryAt c j).type = (entryAt c idx).type := by
  have hout : out = (takenPairs c sim idx n).map (fun p => p.1) := by
    rw [recommend_eq_core c sim title n idx hlook] at hrec
    exact (Option.some.inj hrec).symm.trans (recommendCore_eq_map c sim idx n)
  subst hout
  obtain ⟨p, hpT, rfl⟩ := List.mem_map.mp hj
  exact (mem_takenPairs c sim idx n p hpT).2.2.1

/-- C5 witness: querying A in `catalog3` recommends row 1, whose type equals
the type of row 0. -/
theorem recommend_type_purity_witness :
    (entryAt catalog3 1).type = (entryAt catalog3 0).type :=
  recommend_type_purity catalog3 simOne ("A") 6 0 [1, 2] 1 rfl
    recommend_c0_eval (by norm_num)

/-- C6: the row the input title resolved to never appears among the
recommended rows — the filter drops `i[0] != idx`. -/
theorem recommend_no_self (c : Catalog) (sim : ℕ → ℕ → ℝ) (title : String)
    (n idx : ℕ) (out : List ℕ)
    (hlook : lookupTitle c title = [idx])
    (hrec : recommend_by_title c sim title n = some out) : idx ∉ out := by
  have hout : out = (takenPairs c sim idx n).map (fun p => p.1) := by
    rw [recommend_eq_core c sim title n idx hlook] at hrec
    exact (Option.some.inj hrec).symm.trans (recommendCore_eq_map c sim idx n)
  subst hout
  intro hmem
  obtain ⟨p, hpT, hp1⟩ := List.mem_map.mp hmem
  exact (mem_takenPairs c sim idx n p hpT).2.2.2 hp1

/-- C6 witness: querying A in `catalog3` resolves to row 0, which is not among
the recommended rows. -/
theorem recommend_no_self_witness : (0 : ℕ) ∉ ([1, 2] : List ℕ) :=
  recommend_no_self catalog3 simOne ("A") 6 0 [1, 2] rfl recommend_c0_eval

/-- C7: when the title resolves to a unique row, the call returns (it does not
fail), the returned list has length `min n m` where `m` counts the same-type
rows other than the input — in particular at most `n` — and when `m ≤ n`
every such candidate row is in the output. -/
theorem recommend_length (c : Catalog) (sim : ℕ → ℕ → ℝ) (title : String)
    (n idx : ℕ) (hlook : lookupTitle c title = [idx]) :
    ∃ out, recommend_by_title c sim title n = some out ∧
      out.length = min n (candidateCount c idx) ∧
      (candidateCount c idx ≤ n → ∀ j, j < c.length →
        (entryAt c j).type = (entryAt c idx).type → j ≠ idx → j ∈ out) := by
  have hflen : ((sortByScoreDesc (scorePairs c sim idx)).filter
      (candPred c idx)).length = candidateCount c idx := by
    rw [← List.countP_eq_length_filter]
    rw [(perm_sortByScoreDesc (scorePairs c sim idx)).countP_eq]
    unfold scorePairs
    rw [List.countP_map]
    unfold candidateCount
    rw [← List.countP_eq_length_filter]
    rfl
  refine ⟨recommendCore c sim idx n,
    recommend_eq_core c sim title n idx hlook, ?_, ?_⟩
  · rw [recommendCore_eq_map, List.length_map]
    unfold takenPairs
    rw [List.length_take, hflen]
  · intro hm j hjlen htype hne
    have htake : takenPairs c sim idx n =
        (sortByScoreDesc (scorePairs c sim idx)).filter (candPred c idx) := by
      unfold takenPairs
      exact List.take_of_length_le (by rw [hflen]; exact hm)
    rw [recommendCore_eq_map, htake]
    refine List.mem_map.mpr ⟨(j, sim idx j), List.mem_filter.mpr ⟨?_, ?_⟩, rfl⟩
    · apply (perm_sortByScoreDesc _).mem_iff.mpr
      show (j, sim idx j) ∈ scorePairs c sim idx
      unfold scorePairs
      exact List.mem_map.mpr ⟨j, List.mem_range.mpr hjlen, rfl⟩
    · unfold candPred
      simp [htype, hne]

/-- C7 witness: querying A in `catalog3` yields exactly the other two Movie
rows (the candidate count is 2 and 2 is less than 6), including row 1. -/
theorem recommend_length_witness :
    recommend_by_title catalog3 simOne ("A") 6 = some [1, 2] ∧
    ([1, 2] : List ℕ).length = min 6 (candidateCount catalog3 0) ∧
    (1 : ℕ) ∈ ([1, 2] : List ℕ) := by
  obtain ⟨out, h1, h2, h3⟩ := recommend_length catalog3 simOne ("A") 6 0 rfl
  have hout : out = [1, 2] := by
    rw [recommend_c0_eval] at h1
    exact (Option.some.inj h1).symm
  subst hout
  exact ⟨recommend_c0_eval, h2, h3 (by decide) 1 (by decide) rfl (by decide)⟩

/-! ### Facts about the poster helper -/

lemma usePosterPath_falsy (pp : Json) (ht : pp.truthy = false) :
    usePosterPath pp = Except.ok none ∧ posterPathValue pp = none := by
  constructor
  · simp [usePosterPath, ht]
  · cases pp <;> simp_all [posterPathValue, Json.truthy]

lemma usePosterPath_good (pp : Json) (h : goodPp (some pp) = true) :
    usePosterPath pp = Except.ok (posterPathValue pp) := by
  by_cases ht : pp.truthy = true
  · cases pp with
    | str s =>
      have hs : (s != "") = true := by simpa [Json.truthy] using ht
      simp [usePosterPath, Json.truthy, hs, pyConcatUrl, useConcat,
        posterPathValue]
    | null => simp_all [goodPp, isStr, Json.truthy]
    | boolean bb => simp_all [goodPp, isStr, Json.truthy]
    | num nn => simp_all [goodPp, isStr, Json.truthy]
    | arr aa => simp_all [goodPp, isStr, Json.truthy]
    | obj oo => simp_all [goodPp, isStr, Json.truthy]
  · have ht2 : pp.truthy = false := by
      cases hb : pp.truthy
      · rfl
      · exact absurd hb ht
    obtain ⟨h1, h2⟩ := usePosterPath_falsy pp ht2
    rw [h1, h2]

lemma useFirstResult_good (first : Json) (h : goodFirst first = true) :
    useFirstResult first = Except.ok (posterOfFirst first) := by
  cases first with
  | obj ffields =>
    unfold useFirstResult posterOfFirst
    simp only [pyGet]
    cases hpp : jsonLookup ffields ("poster_path") with
    | none => simp [usePosterOpt, posterOfPpOpt]
    | some pp =>
      simp only [goodFirst, hpp] at h
      simp only [usePosterOpt, posterOfPpOpt]
      exact usePosterPath_good pp h
  | null => simp [goodFirst] at h
  | boolean bb => simp [goodFirst] at h
  | num nn => simp [goodFirst] at h
  | str ss => simp [goodFirst] at h
  | arr aa => simp [goodFirst] at h

lemma useBody_good (b : Json) (hgood : goodBody b = true) :
    useBody b = Except.ok (posterOf b) := by
  cases b with
  | obj fields =>
    unfold useBody posterOf
    simp only [pyGet]
    cases hres : jsonLookup fields ("results") with
    | none => simp [useResultsOpt, posterOfResults]
    | some results =>
      simp only [goodBody, hres, goodResultsOpt] at hgood
      simp only [useResultsOpt, posterOfResults]
      by_cases htr : results.truthy = true
      · rw [if_pos htr] at hgood
        cases results with
        | arr elems =>
          cases elems with
          | nil => simp [Json.truthy] at htr
          | cons first rest =>
            simp only [goodResults] at hgood
            simp only [htr, Bool.not_true, Bool.false_eq_true, if_false,
              pyIndexZero, useIndexed]
            exact useFirstResult_good first hgood
        | null => simp [Json.truthy] at htr
        | boolean bb => simp [goodResults] at hgood
        | num nn => simp [goodResults] at hgood
        | str ss => simp [goodResults] at hgood
        | obj oo => simp [goodResults] at hgood
      · have htr2 : results.truthy = false := by
          cases hb : results.truthy
          · rfl
          · exact absurd hb htr
        rw [htr2]
        cases results <;> simp_all [Json.truthy, List.isEmpty_iff]
  | null => simp [goodBody] at hgood
  | boolean bb => simp [goodBody] at hgood
  | num nn => simp [goodBody] at hgood
  | str ss => simp [goodBody] at hgood
  | arr aa => simp [goodBody] at hgood

/-- C7 counterexample: the claim quantifies over every title present in the
title index.  A duplicated title IS present in the index (twice, since
`drop_duplicates` does not collapse labels), there are same-type candidate
rows, yet the call fails — `indices[title]` yields a sub-series and the
scoring code raises — instead of returning a (shorter) sequence. -/
theorem recommend_dup_title_fails :
    ((indicesSeries catalogDup).filter (fun p => p.1 == "A")).length = 2 ∧
    recommend_by_title catalogDup (fun _ _ => 0) ("A") 6 = none :=
  ⟨rfl, rfl⟩

/-- C9 counterexample: the claim says no exception propagates out of
`fetch_poster`.  With a key present and a 200 response whose results list
holds the number 5, `data["results"][0].get("poster_path")` raises
AttributeError (an int has no `.get`), which the `except RequestException`
clause does not catch: the error escapes to the caller. -/
theorem fetch_poster_malformed_raises :
    fetch_poster (some ("k"))
      (fun _ _ => HttpOutcome.success ⟨200, Json.obj
        [("results", Json.arr [Json.num 5])]⟩) ("t") ("Movie") =
      Except.error PyError.attributeError :=
  rfl

/-- C9 amended: the enumerated failure modes — missing (or empty) API key,
request exception, non-200 status — all resolve to None with no exception,
and on a 200 response whose body is well shaped (results, when truthy, a
non-empty array headed by an object; poster_path, when truthy, a string) the
helper returns the denoted poster value (None when poster data is missing)
without exception; a malformed body, however, raises an uncaught error. -/
theorem fetch_poster_contained :
    (∀ net t ct, fetch_poster none net t ct = Except.ok none) ∧
    (∀ k net t ct, net (searchUrl ct) t = HttpOutcome.exn →
      fetch_poster (some k) net t ct = Except.ok none) ∧
    (∀ k net t ct s b, net (searchUrl ct) t = HttpOutcome.success ⟨s, b⟩ →
      s ≠ 200 → fetch_poster (some k) net t ct = Except.ok none) ∧
    (∀ k net t ct b, k ≠ "" →
      net (searchUrl ct) t = HttpOutcome.success ⟨200, b⟩ →
      goodBody b = true →
      fetch_poster (some k) net t ct = Except.ok (posterOf b)) := by
  refine ⟨?_, ?_, ?_, ?_⟩
  · intro net t ct
    simp [fetch_poster]
  · intro k net t ct hnet
    by_cases hk : k = ""
    · simp [fetch_poster, hk]
    · unfold fetch_poster
      rw [if_neg (by simp [hk]), hnet]
      rfl
  · intro k net t ct s b hnet hs
    by_cases hk : k = ""
    · simp [fetch_poster, hk]
    · unfold fetch_poster
      rw [if_neg (by simp [hk]), hnet]
      simp [useNet, hs]
  · intro k net t ct b hk hnet hgood
    unfold fetch_poster
    rw [if_neg (by simp [hk]), hnet]
    simp only [useNet, bne_self_eq_false, Bool.false_eq_true, if_false]
    exact useBody_good b hgood

/-- C9 witness: the four contained modes at concrete inputs; the last one
extracts the poster URL of a well-shaped body. -/
theorem fetch_poster_contained_witness :
    fetch_poster none (fun _ _ => HttpOutcome.exn) ("t") ("Movie") =
      Except.ok none ∧
    fetch_poster (some ("k")) (fun _ _ => HttpOutcome.exn) ("t") ("Movie") =
      Except.ok none ∧
    fetch_poster (some ("k"))
      (fun _ _ => HttpOutcome.success ⟨404, Json.null⟩) ("t") ("Movie") =
      Except.ok none ∧
    fetch_poster (some ("k"))
      (fun _ _ => HttpOutcome.success ⟨200, Json.obj
        [("results", Json.arr
          [Json.obj [("poster_path", Json.str ("/x.jpg"))]])]⟩) ("t") ("Movie") =
      Except.ok (posterOf (Json.obj
        [("results", Json.arr
          [Json.obj [("poster_path", Json.str ("/x.jpg"))]])])) :=
  ⟨fetch_poster_contained.1 _ _ _,
   fetch_poster_contained.2.1 _ _ _ _ rfl,
   fetch_poster_contained.2.2.1 _ _ _ _ 404 _ rfl (by norm_num),
   fetch_poster_contained.2.2.2 _ _ _ _ _ (by decide) rfl (by decide)⟩

/-- C10: dispatch compares `content_type` with the exact string Movie; every
other value — not only TV Show — is routed to the TV search endpoint, with no
validation and no error: the whole helper behaves exactly as it does for
TV Show. -/
theorem nonmovie_routes_to_tv (ct : String) (h : ct ≠ "Movie") :
    searchUrl ct = tvSearchUrl ∧
    ∀ k net t, fetch_poster k net t ct = fetch_poster k net t ("TV Show") := by
  have hurl : searchUrl ct = tvSearchUrl := by
    unfold searchUrl
    rw [if_neg (by simp [h])]
  refine ⟨hurl, ?_⟩
  intro k net t
  unfold fetch_poster
  rw [hurl, show searchUrl ("TV Show") = tvSearchUrl from rfl]

/-- C10 witness: the unrecognized value banana is sent to the TV endpoint and
the helper behaves as for TV Show. -/
theorem nonmovie_routes_to_tv_witness :
    searchUrl ("banana") = tvSearchUrl ∧
    fetch_poster none (fun _ _ => HttpOutcome.exn) ("t") ("banana") =
      fetch_poster none (fun _ _ => HttpOutcome.exn) ("t") ("TV Show") :=
  ⟨(nonmovie_routes_to_tv ("banana") (by decide)).1,
   (nonmovie_routes_to_tv ("banana") (by decide)).2 none
     (fun _ _ => HttpOutcome.exn) ("t")⟩

end NetflixRec
